import Mathlib

/-!
# Verification of `src/libambit/libambit.c` (openambit)

A shallow embedding of the device-identification and session-lifecycle
core of libambit, together with theorems settling the specification
claims about it.

Modelling conventions:
* C strings and byte buffers are `List Nat` (one `Nat` per byte / octet);
  wide-character strings are `List Nat` (one `Nat` per code point, since
  `wchar_t` is UTF-32 on the target platform).
* Nullable pointers are `Option _`; a `none` result of a pointer-valued
  function is a `NULL` return.
* External collaborators (HID transport, registry, protocol transport,
  allocator, `iconv`) are modelled as oracle parameters: each call site's
  outcome is an input to the embedded function.
* Side effects (allocations, frees, transport opens/closes, driver
  callbacks) are recorded as explicit event traces.
-/

namespace LibAmbit

/-! ## Model of the external `iconv` UTF-8 converter

`wcs2nutf8` drives glibc's `iconv` converting `WCHAR_T` (UTF-32 code
points) to UTF-8.  The converter is external to the repository; it is
modelled here by the standard UTF-8 encoding: a code point outside the
Unicode scalar range (surrogates, or above `0x10FFFF`) is an invalid
sequence (`EILSEQ`), and the converter processes the input left to
right, stopping with `E2BIG` as soon as the next character's encoding
does not fit in the remaining output space. -/

/-- UTF-8 encoding of a single code point; `none` for a value that is
not a Unicode scalar (surrogate or out of range). -/
def utf8encodeChar (c : Nat) : Option (List Nat) :=
  if c < 0x80 then some [c]
  else if c < 0x800 then some [0xC0 ||| (c >>> 6), 0x80 ||| (c &&& 0x3F)]
  else if c < 0xD800 then
    some [0xE0 ||| (c >>> 12), 0x80 ||| ((c >>> 6) &&& 0x3F), 0x80 ||| (c &&& 0x3F)]
  else if c < 0xE000 then none
  else if c < 0x10000 then
    some [0xE0 ||| (c >>> 12), 0x80 ||| ((c >>> 6) &&& 0x3F), 0x80 ||| (c &&& 0x3F)]
  else if c < 0x110000 then
    some [0xF0 ||| (c >>> 18), 0x80 ||| ((c >>> 12) &&& 0x3F),
          0x80 ||| ((c >>> 6) &&& 0x3F), 0x80 ||| (c &&& 0x3F)]
  else none

/-- UTF-8 encoding of a whole code-point sequence (meaningful when every
code point is valid; invalid code points contribute nothing). -/
def utf8encodeList (cs : List Nat) : List Nat :=
  cs.flatMap fun c => (utf8encodeChar c).getD []

/-- Failure modes of one `iconv` conversion call that matter to
`wcs2nutf8`: output buffer too small, or invalid input sequence. -/
inductive IconvErr where
  | e2big
  | eilseq
deriving DecidableEq, Repr

instance {ε α : Type} [DecidableEq ε] [DecidableEq α] : DecidableEq (Except ε α)
  | Except.ok a, Except.ok b =>
    if h : a = b then isTrue (by rw [h]) else isFalse (by intro hc; cases hc; exact h rfl)
  | Except.ok _, Except.error _ => isFalse (by intro hc; cases hc)
  | Except.error _, Except.ok _ => isFalse (by intro hc; cases hc)
  | Except.error e, Except.error f =>
    if h : e = f then isTrue (by rw [h]) else isFalse (by intro hc; cases hc; exact h rfl)

/-- One `iconv(cd, &ibuf, &ilen, &obuf, &olen)` call converting the given
code points into an output buffer with `space` bytes remaining: processes
characters left to right, failing at the first invalid character
(`EILSEQ`) or at the first character whose encoding no longer fits
(`E2BIG`). -/
def iconvRun : List Nat → Nat → Except IconvErr (List Nat)
  | [], _ => .ok []
  | c :: cs, space =>
    match utf8encodeChar c with
    | none => .error .eilseq
    | some bs =>
      if bs.length ≤ space then
        match iconvRun cs (space - bs.length) with
        | .ok rest => .ok (bs ++ rest)
        | .error e => .error e
      else .error .e2big

/-- The retry loop of `wcs2nutf8`: attempt to convert the first `m` wide
characters of `src` into `n` bytes; on `E2BIG` drop one wide character
and retry (the C do/while with `--m`); on `EILSEQ` the buffer was set to
the empty string and the loop exits. -/
def wcs2nutf8Go (src : List Nat) (n : Nat) : Nat → List Nat
  | 0 => []
  | m + 1 =>
    match iconvRun (src.take (m + 1)) n with
    | .ok bs => bs
    | .error .eilseq => []
    | .error .e2big => wcs2nutf8Go src n m

/-- `wcs2nutf8(dest, src, n)` (libambit.c:363-407): converts the wide
string `src` to a UTF-8 string of at most `n` bytes, starting from the
full length `wcslen(src)` and shortening one wide character at a time
while the conversion fails with `E2BIG`.  The value is the byte content
of the produced (null-terminated) string. -/
def wcs2nutf8 (src : List Nat) (n : Nat) : List Nat :=
  wcs2nutf8Go src n src.length

/-! ## Data model -/

/-- `struct hid_device_info`: the fields of a raw interface descriptor
consumed by the identification pipeline.  Strings are byte lists, wide
strings are code-point lists; `none` is a NULL pointer. -/
structure HidDeviceInfo where
  path : Option (List Nat)
  vendor_id : Nat
  product_id : Nat
  product_string : Option (List Nat)
  serial_number : Option (List Nat)

/-- `ambit_device_info_t`: one identity record.  The `next` link is
represented by membership in a `List`.  `access_status` is an errno value
(`0` = probed successfully). -/
structure AmbitDeviceInfo where
  path : Option (List Nat)
  vendor_id : Nat
  product_id : Nat
  name : List Nat
  serial : List Nat
  model : List Nat
  fw_version : List Nat
  hw_version : List Nat
  is_supported : Bool
  access_status : Nat
deriving DecidableEq

/-- Modelled from the spec: `ambit_device_driver_t` (declared in
`device_driver.h`, which is not part of src/) — "a set of capability
function pointers plus driver-private state".  Each capability is
optional; a capability receives the contents of its in/out parameter
(abstracted as `Nat`, or a byte list for bulk data) and returns its
status code, the new parameter contents where the C function has an
output parameter, and a trace of the I/O operations it performed. -/
structure Driver where
  lock_log : Option Unit
  deinit : Option Unit
  date_time_set : Option (Nat → Int × List Nat)
  status_get : Option (Nat → Int × Nat × List Nat)
  personal_settings_get : Option (Nat → Int × Nat × List Nat)
  gps_orbit_header_read : Option (Nat → Int × Nat × List Nat)
  gps_orbit_write : Option (List Nat → Int × List Nat)
  log_read : Option (Nat → Int × List Nat)

/-- Modelled from the spec: `ambit_known_device_t` (declared in
`device_support.h`, not part of src/) — a registry entry resolving a
device to its canonical display name, support flag and driver. -/
structure KnownDevice where
  name : List Nat
  supported : Bool
  driver : Driver

/-- `ambit_object_t`: a live session.  `handle` records whether the
transport handle is non-null. -/
structure AmbitObject where
  handle : Bool
  driver : Option Driver
  device_info : AmbitDeviceInfo
  sequence_no : Nat

/-! ## Device-info probe parser (`device_info_get`, `utf8strncpy`) -/

/-- The C-string contents of a buffer after `strncpy(dst, src, n)`
followed by forcing `dst[n] = 0` (as `device_info_get` does): the bytes
of `src` up to the first NUL, capped at `n` bytes.  `utf8strncpy` only
adds a non-ASCII warning before delegating to `strncpy`, so its data
behaviour is exactly this. -/
def strncpyField (src : List Nat) (n : Nat) : List Nat :=
  (src.take n).takeWhile (fun b => b ≠ 0)

/-- How `device_info_get` fills an identity record from a successful
probe reply (libambit.c:324-335): model name at offset 0 (`modelLen`
bytes, NUL-terminated at `modelLen`), serial next (`serialLen` bytes),
then 4 bytes of firmware version and 4 bytes of hardware version.
`modelLen`/`serialLen` are `LIBAMBIT_MODEL_NAME_LENGTH` and
`LIBAMBIT_SERIAL_LENGTH`, fixed schema constants from `libambit.h` (not
part of src/), kept abstract here. -/
def applyDeviceInfoReply (modelLen serialLen : Nat) (reply : List Nat)
    (info : AmbitDeviceInfo) : AmbitDeviceInfo :=
  { info with
      model := strncpyField reply modelLen
      serial := strncpyField (reply.drop modelLen) serialLen
      fw_version := (reply.drop (modelLen + serialLen)).take 4
      hw_version := (reply.drop (modelLen + serialLen + 4)).take 4 }

/-- `device_info_get(object, info)` (libambit.c:315-345).  The protocol
exchange is external; its outcome is the oracle `reply` (`none` = the
command failed).  On success the reply payload is parsed into `info`
(when `info` is non-null) and `0` is returned; on failure `-1` is
returned and `info` is left untouched. -/
def device_info_get (modelLen serialLen : Nat) (reply : Option (List Nat))
    (info : Option AmbitDeviceInfo) : Int × Option AmbitDeviceInfo :=
  match reply with
  | some r =>
    (0, match info with
        | some i => some (applyDeviceInfoReply modelLen serialLen r i)
        | none => none)
  | none => (-1, info)

/-! ## Identification pipeline (`ambit_device_info_new`, `libambit_enumerate`) -/

/-- Per-descriptor outcomes of the external collaborators consulted by
`ambit_device_info_new`, plus the fixed schema field widths (the length
constants live in `libambit.h`, not part of src/, and are kept
abstract). -/
structure DevEnv where
  productNameLen : Nat
  serialLen : Nat
  modelLen : Nat
  known : Bool
  strdupOk : Bool
  callocOk : Bool
  hidOpenOk : Bool
  probeReply : Option (List Nat)
  find : Option KnownDevice
  rdwrErrno : Option Nat

/-- `ambit_device_info_new(dev)` (libambit.c:409-531): build one identity
record from a raw descriptor.  Oracles: `env.known` is
`libambit_device_support_known(vid, pid)`; `env.strdupOk`/`env.callocOk`
are the allocator; `env.hidOpenOk` is `hid_open_path` succeeding;
`env.probeReply` is the device-info protocol reply; `env.find` is
`libambit_device_support_find`; `env.rdwrErrno` is the result of the
fallback `open(path, O_RDWR)` capability check (`some errno` = failed). -/
def ambit_device_info_new (env : DevEnv) (dev : Option HidDeviceInfo) :
    Option AmbitDeviceInfo :=
  match dev with
  | none => none
  | some d =>
    match d.path with
    | none => none
    | some p =>
      if !env.known then none
      else if !env.strdupOk then none
      else if !env.callocOk then none
      else
        let device0 : AmbitDeviceInfo :=
          { path := some p
            vendor_id := d.vendor_id
            product_id := d.product_id
            name := []
            serial := []
            model := []
            fw_version := [0, 0, 0, 0]
            hw_version := [0, 0, 0, 0]
            is_supported := false
            access_status := 0 }
        let device1 : AmbitDeviceInfo :=
          { device0 with
              name := match d.product_string with
                      | some ws => wcs2nutf8 ws env.productNameLen
                      | none => device0.name }
        let device2 : AmbitDeviceInfo :=
          { device1 with
              serial := match d.serial_number with
                        | some ws => wcs2nutf8 ws env.serialLen
                        | none => device1.serial }
        if env.hidOpenOk then
          match env.probeReply with
          | some reply =>
            let device3 := applyDeviceInfoReply env.modelLen env.serialLen reply device2
            match env.find with
            | some kd =>
              some { device3 with
                       is_supported := kd.supported
                       name := if device3.name ≠ kd.name then kd.name else device3.name }
            | none => some device3
          | none => some device2
        else
          match env.rdwrErrno with
          | some e => some { device2 with access_status := e }
          | none => some device2

/-- The enumeration loop of `libambit_enumerate` (libambit.c:72-85) with
the linked list represented as the list of records reachable from the
`devices` head pointer.  When a record is produced and `devices` is
already non-empty, the C code only sets `tmp->next = devices` without
reassigning `devices`, so the reachable list is unchanged and `tmp` is
dropped. -/
def enumerateGo (env : HidDeviceInfo → DevEnv) :
    List HidDeviceInfo → List AmbitDeviceInfo → List AmbitDeviceInfo
  | [], devices => devices
  | d :: rest, devices =>
    match ambit_device_info_new (env d) (some d) with
    | some tmp =>
      match devices with
      | [] => enumerateGo env rest [tmp]
      | _ :: _ => enumerateGo env rest devices
    | none => enumerateGo env rest devices

/-- `libambit_enumerate()` (libambit.c:60-89).  `devs` is the linked list
returned by `hid_enumerate(0, 0)` (empty list = NULL, for which the C
code returns NULL, i.e. the empty record list); `env` gives each
descriptor's collaborator outcomes. -/
def libambit_enumerate (env : HidDeviceInfo → DevEnv)
    (devs : List HidDeviceInfo) : List AmbitDeviceInfo :=
  enumerateGo env devs []

/-- The enumeration contract as the specification states it: exactly one
identity record per descriptor the registry recognizes (and that yields
a record), each new record prepended to the accumulator, i.e. most
recently processed first. -/
def enumerateSpec (env : HidDeviceInfo → DevEnv)
    (devs : List HidDeviceInfo) : List AmbitDeviceInfo :=
  (devs.filterMap fun d => ambit_device_info_new (env d) (some d)).reverse

/-! ## Session open (`libambit_new`) -/

/-- The observable actions `libambit_new` can perform, in the order the
code performs them. -/
inductive NewEvent where
  | strdupPath
  | callocObject
  | hidOpen
  | setNonblocking
  | driverInit
  | freePath
deriving DecidableEq

/-- Outcomes of the collaborators `libambit_new` consults. -/
structure NewEnv where
  strdupOk : Bool
  find : Option KnownDevice
  callocOk : Bool
  hidOpenOk : Bool

/-- `libambit_new(device)` (libambit.c:101-140): open a session from an
identity record.  Returns the session (or `none`) and the trace of
allocations, transport operations and driver calls, in program order. -/
def libambit_new (env : NewEnv) (device : Option AmbitDeviceInfo) :
    Option AmbitObject × List NewEvent :=
  match device with
  | none => (none, [])
  | some d =>
    match d.path with
    | none => (none, [])
    | some p =>
      if env.strdupOk then
        if d.access_status = 0 ∧ d.is_supported = true then
          match env.find with
          | some kd =>
            if env.callocOk then
              (some { handle := env.hidOpenOk
                      driver := some kd.driver
                      device_info := { d with path := some p }
                      sequence_no := 0 },
               [NewEvent.strdupPath, NewEvent.callocObject, NewEvent.hidOpen] ++
                 (if env.hidOpenOk then [NewEvent.setNonblocking] else []) ++
                 [NewEvent.driverInit])
            else (none, [NewEvent.strdupPath, NewEvent.callocObject, NewEvent.freePath])
          | none => (none, [NewEvent.strdupPath, NewEvent.freePath])
        else (none, [NewEvent.strdupPath, NewEvent.freePath])
      else (none, [NewEvent.strdupPath])

/-! ## Session close (`libambit_close`) -/

/-- The observable actions of `libambit_close`, in the order the code can
perform them. -/
inductive CloseEvent where
  | lockRelease
  | deinitDriver
  | hidClose
  | freePath
  | freeObject
deriving DecidableEq

/-- `libambit_close(object)` (libambit.c:166-186): the trace of actions
performed.  NULL input is a no-op. -/
def libambit_close : Option AmbitObject → List CloseEvent
  | none => []
  | some o =>
    (match o.driver with
     | some d =>
       (match d.lock_log with
        | some _ => [CloseEvent.lockRelease]
        | none => []) ++
       (match d.deinit with
        | some _ => [CloseEvent.deinitDriver]
        | none => [])
     | none => []) ++
    (if o.handle then [CloseEvent.hidClose] else []) ++
    [CloseEvent.freePath, CloseEvent.freeObject]

/-! ## Capability dispatch -/

/-- `libambit_date_time_set(object, tm)` (libambit.c:202-214). -/
def libambit_date_time_set (object : AmbitObject) (tm : Nat) :
    Int × List Nat :=
  match object.driver with
  | some d =>
    match d.date_time_set with
    | some f => f tm
    | none => (-1, [])
  | none => (-1, [])

/-- `libambit_device_status_get(object, status)` (libambit.c:216-228);
the second component is the final contents of `*status`. -/
def libambit_device_status_get (object : AmbitObject) (status : Nat) :
    Int × Nat × List Nat :=
  match object.driver with
  | some d =>
    match d.status_get with
    | some f => f status
    | none => (-1, status, [])
  | none => (-1, status, [])

/-- `libambit_personal_settings_get(object, settings)` (libambit.c:230-242). -/
def libambit_personal_settings_get (object : AmbitObject) (settings : Nat) :
    Int × Nat × List Nat :=
  match object.driver with
  | some d =>
    match d.personal_settings_get with
    | some f => f settings
    | none => (-1, settings, [])
  | none => (-1, settings, [])

/-- `libambit_gps_orbit_header_read(object, data)` (libambit.c:244-256). -/
def libambit_gps_orbit_header_read (object : AmbitObject) (data : Nat) :
    Int × Nat × List Nat :=
  match object.driver with
  | some d =>
    match d.gps_orbit_header_read with
    | some f => f data
    | none => (-1, data, [])
  | none => (-1, data, [])

/-- `libambit_gps_orbit_write(object, data, datalen)` (libambit.c:258-270). -/
def libambit_gps_orbit_write (object : AmbitObject) (data : List Nat) :
    Int × List Nat :=
  match object.driver with
  | some d =>
    match d.gps_orbit_write with
    | some f => f data
    | none => (-1, [])
  | none => (-1, [])

/-- `libambit_log_read(object, skip_cb, push_cb, progress_cb, userref)`
(libambit.c:272-284); the callbacks and userref are abstracted into one
opaque argument. -/
def libambit_log_read (object : AmbitObject) (args : Nat) :
    Int × List Nat :=
  match object.driver with
  | some d =>
    match d.log_read with
    | some f => f args
    | none => (-1, [])
  | none => (-1, [])

/-! ### Pointer-level dispatch

The six dispatch functions dereference `object->driver` without a NULL
check on `object`.  At the pointer level a NULL session therefore has no
defined result (`none`); a non-null session reduces to the dispatch
above. -/

/-- Pointer-level `libambit_date_time_set`: no NULL check on `object`. -/
def libambit_date_time_set_ptr (object : Option AmbitObject) (tm : Nat) :
    Option (Int × List Nat) :=
  match object with
  | some o => some (libambit_date_time_set o tm)
  | none => none

/-- Pointer-level `libambit_device_status_get`: no NULL check on `object`. -/
def libambit_device_status_get_ptr (object : Option AmbitObject) (status : Nat) :
    Option (Int × Nat × List Nat) :=
  match object with
  | some o => some (libambit_device_status_get o status)
  | none => none

/-- Pointer-level `libambit_personal_settings_get`: no NULL check on `object`. -/
def libambit_personal_settings_get_ptr (object : Option AmbitObject) (settings : Nat) :
    Option (Int × Nat × List Nat) :=
  match object with
  | some o => some (libambit_personal_settings_get o settings)
  | none => none

/-- Pointer-level `libambit_gps_orbit_header_read`: no NULL check on `object`. -/
def libambit_gps_orbit_header_read_ptr (object : Option AmbitObject) (data : Nat) :
    Option (Int × Nat × List Nat) :=
  match object with
  | some o => some (libambit_gps_orbit_header_read o data)
  | none => none

/-- Pointer-level `libambit_gps_orbit_write`: no NULL check on `object`. -/
def libambit_gps_orbit_write_ptr (object : Option AmbitObject) (data : List Nat) :
    Option (Int × List Nat) :=
  match object with
  | some o => some (libambit_gps_orbit_write o data)
  | none => none

/-- Pointer-level `libambit_log_read`: no NULL check on `object`. -/
def libambit_log_read_ptr (object : Option AmbitObject) (args : Nat) :
    Option (Int × List Nat) :=
  match object with
  | some o => some (libambit_log_read o args)
  | none => none

/-! ## Log entry release (`libambit_log_entry_free`) -/

/-- One `ambit_log_sample_t`: the tag (`type`) together with the owned,
separately allocated payload pointer of that variant (`none` = NULL).
All sample types other than `periodic`, `gps_base` and `unknown` own no
separate payload and are collapsed into `other`. -/
inductive LogSample where
  | periodic (values : Option Nat)
  | gps_base (satellites : Option Nat)
  | unknown (data : Option Nat)
  | other
deriving DecidableEq

/-- The frees performed for one sample by the loop body of
`libambit_log_entry_free` (libambit.c:292-308): the payload of the
matching variant, when its pointer is non-null. -/
def sampleFree : LogSample → List Nat
  | LogSample.periodic (some a) => [a]
  | LogSample.gps_base (some a) => [a]
  | LogSample.unknown (some a) => [a]
  | _ => []

/-- An `ambit_log_entry_t`: its own allocation address, and (unless the
`samples` pointer is NULL) the address of the samples array together
with its `samples_count` elements. -/
structure LogEntry where
  addr : Nat
  samples : Option (Nat × List LogSample)

/-- `libambit_log_entry_free(log_entry)` (libambit.c:286-313): the
sequence of addresses passed to `free`, in program order.  NULL input is
a no-op. -/
def libambit_log_entry_free : Option LogEntry → List Nat
  | none => []
  | some e =>
    (match e.samples with
     | some (arr, ss) => ss.flatMap sampleFree ++ [arr]
     | none => []) ++ [e.addr]

/-- The payload a sample owns, per the specification's ownership rule:
exactly the variant-appropriate pointer (`periodic` owns its values
array, `gps_base` its satellite array, `unknown` its byte buffer). -/
def sampleOwnedPayload : LogSample → Option Nat
  | LogSample.periodic v => v
  | LogSample.gps_base s => s
  | LogSample.unknown d => d
  | LogSample.other => none

/-- All allocations a log entry owns, per the specification: each
sample's variant-appropriate non-null payload, then the sample sequence
itself, then the entry. -/
def ownedAllocations (e : LogEntry) : List Nat :=
  (match e.samples with
   | some (arr, ss) => ss.filterMap sampleOwnedPayload ++ [arr]
   | none => []) ++ [e.addr]

/-! ## Version rendering (`version_string`) -/

/-- `LIBAMBIT_VERSION_LENGTH` (libambit.c:347): maximum rendered length,
sized for `255.255.65535`. -/
def LIBAMBIT_VERSION_LENGTH : Nat := 13

/-- Decimal digit expansion helper (structural in the fuel). -/
def decimalAux : Nat → Nat → List Nat
  | 0, _ => []
  | fuel + 1, n => if n = 0 then [] else decimalAux fuel (n / 10) ++ [48 + n % 10]

/-- The ASCII bytes `snprintf`'s `%d` produces for a natural number. -/
def decimal (n : Nat) : List Nat :=
  match n with
  | 0 => [48]
  | _ => decimalAux n n

/-- `version_string(string, version)` (libambit.c:348-355): renders
`"<major>.<minor>.<patch>"` (as ASCII bytes, `46` = `'.'`) where the
patch component is `(version[2] << 0) | (version[3] << 8)`, truncated by
`snprintf` to at most `LIBAMBIT_VERSION_LENGTH` bytes plus the
terminating NUL. -/
def version_string (v0 v1 v2 v3 : Nat) : List Nat :=
  (decimal v0 ++ [46] ++ decimal v1 ++ [46] ++
    decimal ((v2 <<< 0) ||| (v3 <<< 8))).take LIBAMBIT_VERSION_LENGTH

/-! ## Concrete example values

Used to evaluate the embedded functions on closed inputs. -/

/-- An identity record as `calloc` leaves it (all fields zeroed). -/
def infoZero : AmbitDeviceInfo :=
  { path := none
    vendor_id := 0
    product_id := 0
    name := []
    serial := []
    model := []
    fw_version := [0, 0, 0, 0]
    hw_version := [0, 0, 0, 0]
    is_supported := false
    access_status := 0 }

/-- A driver exposing `date_time_set` and the log lock, nothing else. -/
def driverW : Driver :=
  { lock_log := some ()
    deinit := none
    date_time_set := some fun _ => (7, [3])
    status_get := none
    personal_settings_get := none
    gps_orbit_header_read := none
    gps_orbit_write := none
    log_read := none }

/-- A session bound to `driverW`. -/
def objW : AmbitObject :=
  { handle := true
    driver := some driverW
    device_info := infoZero
    sequence_no := 0 }

/-- A raw descriptor with a bus-reported product string `"A"`. -/
def devW : HidDeviceInfo :=
  { path := some [1]
    vendor_id := 4884
    product_id := 25
    product_string := some [65]
    serial_number := none }

/-- Collaborator outcomes: device recognized, allocations succeed, the
HID open fails, and the fallback `open(path, O_RDWR)` fails with
errno 13 (`EACCES`). -/
def envW : DevEnv :=
  { productNameLen := 32
    serialLen := 16
    modelLen := 16
    known := true
    strdupOk := true
    callocOk := true
    hidOpenOk := false
    probeReply := none
    find := none
    rdwrErrno := some 13 }

/-- The record `ambit_device_info_new envW (some devW)` produces. -/
def recW : AmbitDeviceInfo :=
  { path := some [1]
    vendor_id := 4884
    product_id := 25
    name := [65]
    serial := []
    model := []
    fw_version := [0, 0, 0, 0]
    hw_version := [0, 0, 0, 0]
    is_supported := false
    access_status := 13 }

/-- Collaborator outcomes for a `libambit_new` call. -/
def envN : NewEnv :=
  { strdupOk := true
    find := none
    callocOk := true
    hidOpenOk := false }

/-- A raw descriptor without bus-reported strings. -/
def dev1 : HidDeviceInfo :=
  { path := some [1]
    vendor_id := 4884
    product_id := 25
    product_string := none
    serial_number := none }

/-- A second such descriptor on another path. -/
def dev2 : HidDeviceInfo :=
  { path := some [2]
    vendor_id := 4884
    product_id := 25
    product_string := none
    serial_number := none }

/-- The same collaborator outcomes for every descriptor. -/
def envAll : HidDeviceInfo → DevEnv := fun _ => envW

/-- The record the pipeline produces for `dev1` under `envAll`. -/
def rec1 : AmbitDeviceInfo :=
  { recW with name := [], path := some [1] }

/-- The record the pipeline produces for `dev2` under `envAll`. -/
def rec2 : AmbitDeviceInfo :=
  { recW with name := [], path := some [2] }

/-- A log entry owning one payload of each variant, with distinct
allocation addresses. -/
def entryW : LogEntry :=
  { addr := 10
    samples := some (20, [LogSample.periodic (some 1),
                          LogSample.gps_base (some 2),
                          LogSample.unknown (some 3),
                          LogSample.other]) }

/-! ## Theorems -/

/-- Every successful `iconv` conversion fits in the remaining space. -/
theorem iconvRun_ok_length {cs : List Nat} {space : Nat} {bs : List Nat}
    (h : iconvRun cs space = .ok bs) : bs.length ≤ space := by
  induction cs generalizing space bs with
  | nil =>
    simp only [iconvRun] at h
    cases h
    simp
  | cons c cs ih =>
    cases henc : utf8encodeChar c with
    | none => simp [iconvRun, henc] at h
    | some b =>
      simp only [iconvRun, henc] at h
      split at h
      · split at h
        · rename_i hfit rest hrec
          cases h
          have hr := ih hrec
          simp only [List.length_append]
          omega
        · simp at h
      · simp at h

/-- On all-valid input, `iconv` succeeds exactly when the full encoding
fits, and then returns the full encoding. -/
theorem iconvRun_valid {cs : List Nat} (hv : ∀ c ∈ cs, (utf8encodeChar c).isSome)
    (space : Nat) :
    iconvRun cs space =
      if (utf8encodeList cs).length ≤ space then .ok (utf8encodeList cs)
      else .error .e2big := by
  induction cs generalizing space with
  | nil => simp [iconvRun, utf8encodeList]
  | cons c cs ih =>
    have hc : (utf8encodeChar c).isSome := hv c (by simp)
    cases henc : utf8encodeChar c with
    | none => rw [henc] at hc; simp at hc
    | some b =>
      have hv' : ∀ x ∈ cs, (utf8encodeChar x).isSome := fun x hx => hv x (by simp [hx])
      have hlist : utf8encodeList (c :: cs) = b ++ utf8encodeList cs := by
        simp [utf8encodeList, henc]
      simp only [iconvRun, henc, ih hv', hlist, List.length_append]
      by_cases hfit : b.length ≤ space
      · rw [if_pos hfit]
        by_cases hrest : (utf8encodeList cs).length ≤ space - b.length
        · rw [if_pos hrest, if_pos (by omega)]
        · rw [if_neg hrest, if_neg (by omega)]
      · rw [if_neg hfit, if_neg (by omega)]

/-- The retry loop never produces more than `n` bytes. -/
theorem wcs2nutf8Go_length (src : List Nat) (n : Nat) :
    ∀ m, (wcs2nutf8Go src n m).length ≤ n := by
  intro m
  induction m with
  | zero => simp [wcs2nutf8Go]
  | succ m ih =>
    simp only [wcs2nutf8Go]
    cases hrun : iconvRun (src.take (m + 1)) n with
    | ok bs => exact iconvRun_ok_length hrun
    | error e => cases e <;> simp [ih]

/-- On all-valid input the retry loop returns the encoding of the longest
prefix of at most `m` wide characters that fits in `n` bytes. -/
theorem wcs2nutf8Go_valid (src : List Nat) (n : Nat)
    (hv : ∀ c ∈ src, (utf8encodeChar c).isSome) :
    ∀ m, ∃ k, k ≤ m ∧
      wcs2nutf8Go src n m = utf8encodeList (src.take k) ∧
      (utf8encodeList (src.take k)).length ≤ n ∧
      (k = m ∨ n < (utf8encodeList (src.take (k + 1))).length) := by
  intro m
  induction m with
  | zero => exact ⟨0, le_refl 0, by simp [wcs2nutf8Go, utf8encodeList], by simp [utf8encodeList], Or.inl rfl⟩
  | succ m ih =>
    have hvt : ∀ c ∈ src.take (m + 1), (utf8encodeChar c).isSome :=
      fun c hc => hv c (List.mem_of_mem_take hc)
    simp only [wcs2nutf8Go, iconvRun_valid hvt n]
    by_cases hfit : (utf8encodeList (src.take (m + 1))).length ≤ n
    · rw [if_pos hfit]
      exact ⟨m + 1, le_refl _, rfl, hfit, Or.inl rfl⟩
    · rw [if_neg hfit]
      obtain ⟨k, hk, heq, hlen, hmax⟩ := ih
      refine ⟨k, by omega, heq, hlen, ?_⟩
      rcases hmax with h | h
      · subst h; exact Or.inr (by omega)
      · exact Or.inr h

/-- Claim C7 (amended): `wcs2nutf8` produces a (null-terminated) UTF-8
string of at most `n` bytes.  For a fully decodable input it is the
encoding of the longest prefix of whole wide characters that fits in `n`
bytes (never splitting a multi-byte sequence).  An invalid or incomplete
sequence yields the empty string when the conversion attempt reaches it
within the byte bound — an invalid character beyond the truncation point
is dropped together with the truncation, and the valid truncated prefix
is returned. -/
theorem wcs2nutf8_spec (src : List Nat) (n : Nat) :
    (wcs2nutf8 src n).length ≤ n ∧
    ((∀ c ∈ src, (utf8encodeChar c).isSome) →
      ∃ k, k ≤ src.length ∧
        wcs2nutf8 src n = utf8encodeList (src.take k) ∧
        (utf8encodeList (src.take k)).length ≤ n ∧
        (k = src.length ∨ n < (utf8encodeList (src.take (k + 1))).length)) ∧
    (iconvRun src n = .error .eilseq → wcs2nutf8 src n = []) := by
  refine ⟨wcs2nutf8Go_length src n src.length,
          fun hv => wcs2nutf8Go_valid src n hv src.length, ?_⟩
  intro h
  unfold wcs2nutf8
  cases hl : src.length with
  | zero =>
    have hnil : src = [] := List.length_eq_zero.mp hl
    subst hnil
    simp [iconvRun] at h
  | succ m =>
    have ht : src.take (m + 1) = src := by
      rw [← hl]; exact List.take_length src
    simp [wcs2nutf8Go, ht, h]

/-- Claim C7, counterexample to the claim as stated: the input
`[65, 66, 67, 0xD800]` is undecodable (the full conversion fails with an
invalid sequence even with ample space), yet with byte bound `2` the
transcoder returns the non-empty string `"AB"`: the `E2BIG` retry loop
drops the invalid trailing character before the converter ever reaches
it. -/
theorem wcs2nutf8_cx :
    iconvRun [65, 66, 67, 55296] 1000 = .error .eilseq ∧
    wcs2nutf8 [65, 66, 67, 55296] 2 = [65, 66] ∧
    wcs2nutf8 [65, 66, 67, 55296] 2 ≠ [] := by
  refine ⟨by decide, by decide, by decide⟩

/-- Claim C7, witness: the amended theorem applied at a concrete
undecodable input whose invalid character is reached within the bound. -/
theorem wcs2nutf8_spec_w : wcs2nutf8 [55296] 5 = [] :=
  (wcs2nutf8_spec [55296] 5).2.2 (by decide)

/-- `decimalAux` produces at most `k` digits for numbers below `10 ^ k`. -/
theorem decimalAux_length (fuel : Nat) :
    ∀ n k, n < 10 ^ k → (decimalAux fuel n).length ≤ k := by
  induction fuel with
  | zero => intro n k _; simp [decimalAux]
  | succ fuel ih =>
    intro n k h
    simp only [decimalAux]
    by_cases hn : n = 0
    · simp [hn]
    · rw [if_neg hn]
      have hk : k ≠ 0 := by
        intro hk0
        subst hk0
        simp at h
        exact hn h
      have hdiv : n / 10 < 10 ^ (k - 1) := by
        have h10 : 10 ^ k = 10 ^ (k - 1) * 10 := by
          conv_lhs => rw [show k = (k - 1) + 1 by omega]
          rw [pow_succ]
        rw [Nat.div_lt_iff_lt_mul (by norm_num)]
        omega
      have := ih (n / 10) (k - 1) hdiv
      simp only [List.length_append, List.length_cons, List.length_nil]
      omega

/-- `decimal` produces at most `k` digits for positive `k` and numbers
below `10 ^ k`. -/
theorem decimal_length (n k : Nat) (hk : 1 ≤ k) (h : n < 10 ^ k) :
    (decimal n).length ≤ k := by
  match n with
  | 0 => simpa [decimal] using hk
  | m + 1 => exact decimalAux_length (m + 1) (m + 1) k h

/-- Composing a low byte with a shifted high byte by bitwise or is
little-endian addition. -/
theorem lor_shiftLeft_eight (a b : Nat) (h : a < 256) :
    a ||| b <<< 8 = a + 256 * b := by
  apply Nat.eq_of_testBit_eq
  intro i
  rw [Nat.testBit_or, Nat.testBit_shiftLeft]
  by_cases hi : 8 ≤ i
  · have ha : a.testBit i = false := by
      refine Nat.testBit_lt_two_pow (lt_of_lt_of_le h ?_)
      calc (256 : Nat) = 2 ^ 8 := by norm_num
        _ ≤ 2 ^ i := Nat.pow_le_pow_right (by norm_num) hi
    have hdec : decide (i ≥ 8) = true := by simp [hi]
    rw [hdec, Bool.true_and, ha, Bool.false_or]
    rw [Nat.testBit_to_div_mod, Nat.testBit_to_div_mod]
    have hdiv : (a + 256 * b) / 2 ^ i = b / 2 ^ (i - 8) := by
      have h2 : (2 : Nat) ^ i = 256 * 2 ^ (i - 8) := by
        rw [show (256 : Nat) = 2 ^ 8 by norm_num, ← pow_add]
        congr 1
        omega
      rw [h2, ← Nat.div_div_eq_div_mul, Nat.add_mul_div_left a b (by norm_num : (0:Nat) < 256),
          Nat.div_eq_of_lt h, Nat.zero_add]
    rw [hdiv]
  · have hdec : decide (i ≥ 8) = false := by simp [hi]
    rw [hdec, Bool.false_and, Bool.or_false]
    rw [Nat.testBit_to_div_mod, Nat.testBit_to_div_mod]
    have h2 : 256 * b = 2 ^ i * (2 * (2 ^ (7 - i) * b)) := by
      rw [← Nat.mul_assoc, ← Nat.mul_assoc, ← pow_succ]
      rw [show (2:Nat) ^ (i + 1) * 2 ^ (7 - i) = 2 ^ ((i + 1) + (7 - i)) from (pow_add 2 _ _).symm]
      rw [show (i + 1) + (7 - i) = 8 by omega]
      norm_num
    rw [h2, Nat.add_mul_div_left _ _ (Nat.two_pow_pos i), Nat.add_mul_mod_self_left]

/-- Claim C8: `version_string` renders `<major>.<minor>.<patch>` with
major = byte 0, minor = byte 1, and patch the little-endian 16-bit value
from bytes 2 and 3; in particular bytes `[1, 2, 3, 4]` render as the
ASCII bytes of `"1.2.1027"`. -/
theorem version_string_spec (v0 v1 v2 v3 : Nat)
    (h0 : v0 < 256) (h1 : v1 < 256) (h2 : v2 < 256) (h3 : v3 < 256) :
    version_string v0 v1 v2 v3 =
      decimal v0 ++ [46] ++ decimal v1 ++ [46] ++ decimal (v2 + 256 * v3) ∧
    version_string 1 2 3 4 = [49, 46, 50, 46, 49, 48, 50, 55] := by
  constructor
  · unfold version_string
    rw [Nat.shiftLeft_zero, lor_shiftLeft_eight v2 v3 h2]
    apply List.take_of_length_le
    have l0 : (decimal v0).length ≤ 3 :=
      decimal_length v0 3 (by norm_num) (by norm_num; omega)
    have l1 : (decimal v1).length ≤ 3 :=
      decimal_length v1 3 (by norm_num) (by norm_num; omega)
    have l2 : (decimal (v2 + 256 * v3)).length ≤ 5 :=
      decimal_length (v2 + 256 * v3) 5 (by norm_num) (by norm_num; omega)
    simp only [List.length_append, List.length_cons, List.length_nil,
               LIBAMBIT_VERSION_LENGTH]
    omega
  · decide

/-- Claim C8, witness: the rendering theorem applied at bytes
`[1, 2, 3, 4]`. -/
theorem version_string_spec_w :
    version_string 1 2 3 4 =
      decimal 1 ++ [46] ++ decimal 2 ++ [46] ++ decimal (3 + 256 * 4) :=
  (version_string_spec 1 2 3 4 (by norm_num) (by norm_num) (by norm_num)
    (by norm_num)).1

/-- The loop body of `libambit_log_entry_free` frees exactly the
variant-appropriate owned payload of each sample. -/
theorem sampleFree_eq_toList_ownedPayload (s : LogSample) :
    sampleFree s = (sampleOwnedPayload s).toList := by
  cases s with
  | periodic v => cases v <;> rfl
  | gps_base v => cases v <;> rfl
  | unknown v => cases v <;> rfl
  | other => rfl

/-- Flattening the per-sample frees collects the owned payloads. -/
theorem flatMap_sampleFree (ss : List LogSample) :
    ss.flatMap sampleFree = ss.filterMap sampleOwnedPayload := by
  induction ss with
  | nil => rfl
  | cons s ss ih =>
    rw [List.flatMap_cons, List.filterMap_cons, ih, sampleFree_eq_toList_ownedPayload]
    cases sampleOwnedPayload s <;> simp

/-- Claim C5: `libambit_log_entry_free` on NULL is a no-op; otherwise it
frees, in order, each sample's variant-appropriate non-null payload,
then the sample sequence, then the entry — and when the owned
allocations are distinct, each is freed exactly once. -/
theorem log_entry_free_spec :
    libambit_log_entry_free none = [] ∧
    ∀ e : LogEntry,
      libambit_log_entry_free (some e) = ownedAllocations e ∧
      ((ownedAllocations e).Nodup →
        ∀ a ∈ ownedAllocations e, (libambit_log_entry_free (some e)).count a = 1) := by
  refine ⟨rfl, fun e => ?_⟩
  have heq : libambit_log_entry_free (some e) = ownedAllocations e := by
    cases hs : e.samples with
    | none => simp [libambit_log_entry_free, ownedAllocations, hs]
    | some p =>
      obtain ⟨arr, ss⟩ := p
      simp [libambit_log_entry_free, ownedAllocations, hs, flatMap_sampleFree]
  exact ⟨heq, fun hnd a ha => heq ▸ List.count_eq_one_of_mem hnd ha⟩

/-- Claim C5, witness: releasing an entry with one sample of each
variant at distinct addresses frees each owned allocation exactly
once. -/
theorem log_entry_free_spec_w :
    (libambit_log_entry_free (some entryW)).count 2 = 1 :=
  (log_entry_free_spec.2 entryW).2 (by decide) 2 (by decide)

/-- Claim C4: `libambit_close` on NULL is a no-op; otherwise its actions
are a subsequence of the canonical order lock-release, deinitialize,
transport-close, free-path, free-session, where lock-release happens iff
a driver is bound and exposes the lock capability, deinitialize iff a
driver is bound and exposes a deinitializer, transport-close iff the
handle is open, and the final frees happen unconditionally. -/
theorem close_ordering :
    libambit_close none = [] ∧
    ∀ o : AmbitObject,
      List.Sublist (libambit_close (some o))
        [CloseEvent.lockRelease, CloseEvent.deinitDriver, CloseEvent.hidClose,
         CloseEvent.freePath, CloseEvent.freeObject] ∧
      ((CloseEvent.lockRelease ∈ libambit_close (some o)) ↔
        ∃ d, o.driver = some d ∧ d.lock_log.isSome = true) ∧
      ((CloseEvent.deinitDriver ∈ libambit_close (some o)) ↔
        ∃ d, o.driver = some d ∧ d.deinit.isSome = true) ∧
      ((CloseEvent.hidClose ∈ libambit_close (some o)) ↔ o.handle = true) ∧
      CloseEvent.freePath ∈ libambit_close (some o) ∧
      CloseEvent.freeObject ∈ libambit_close (some o) := by
  refine ⟨rfl, fun o => ?_⟩
  obtain ⟨handle, driver, info, seq⟩ := o
  cases driver with
  | none => cases handle <;> simp [libambit_close] <;> decide
  | some d =>
    cases hll : d.lock_log <;> cases hde : d.deinit <;> cases handle <;>
      simp [libambit_close, hll, hde] <;> decide

/-- Claim C6: each capability dispatch call passes through to the bound
driver's capability when exposed, returning the driver's result; when
the driver is NULL or does not expose the capability, it returns the
sentinel `-1`, performs no I/O, and leaves its output parameters
untouched. -/
theorem capability_dispatch_spec (o : AmbitObject) :
    (∀ d f tm, o.driver = some d → d.date_time_set = some f →
      libambit_date_time_set o tm = f tm) ∧
    (∀ tm, (o.driver = none ∨ ∃ d, o.driver = some d ∧ d.date_time_set = none) →
      libambit_date_time_set o tm = (-1, [])) ∧
    (∀ d f status, o.driver = some d → d.status_get = some f →
      libambit_device_status_get o status = f status) ∧
    (∀ status, (o.driver = none ∨ ∃ d, o.driver = some d ∧ d.status_get = none) →
      libambit_device_status_get o status = (-1, status, [])) ∧
    (∀ d f settings, o.driver = some d → d.personal_settings_get = some f →
      libambit_personal_settings_get o settings = f settings) ∧
    (∀ settings, (o.driver = none ∨ ∃ d, o.driver = some d ∧ d.personal_settings_get = none) →
      libambit_personal_settings_get o settings = (-1, settings, [])) ∧
    (∀ d f data, o.driver = some d → d.gps_orbit_header_read = some f →
      libambit_gps_orbit_header_read o data = f data) ∧
    (∀ data, (o.driver = none ∨ ∃ d, o.driver = some d ∧ d.gps_orbit_header_read = none) →
      libambit_gps_orbit_header_read o data = (-1, data, [])) ∧
    (∀ d f data, o.driver = some d → d.gps_orbit_write = some f →
      libambit_gps_orbit_write o data = f data) ∧
    (∀ data, (o.driver = none ∨ ∃ d, o.driver = some d ∧ d.gps_orbit_write = none) →
      libambit_gps_orbit_write o data = (-1, [])) ∧
    (∀ d f args, o.driver = some d → d.log_read = some f →
      libambit_log_read o args = f args) ∧
    (∀ args, (o.driver = none ∨ ∃ d, o.driver = some d ∧ d.log_read = none) →
      libambit_log_read o args = (-1, [])) := by
  refine ⟨?_, ?_, ?_, ?_, ?_, ?_, ?_, ?_, ?_, ?_, ?_, ?_⟩
  · intro d f tm hd hf; simp [libambit_date_time_set, hd, hf]
  · rintro tm (h | ⟨d, hd, hf⟩)
    · simp [libambit_date_time_set, h]
    · simp [libambit_date_time_set, hd, hf]
  · intro d f status hd hf; simp [libambit_device_status_get, hd, hf]
  · rintro status (h | ⟨d, hd, hf⟩)
    · simp [libambit_device_status_get, h]
    · simp [libambit_device_status_get, hd, hf]
  · intro d f settings hd hf; simp [libambit_personal_settings_get, hd, hf]
  · rintro settings (h | ⟨d, hd, hf⟩)
    · simp [libambit_personal_settings_get, h]
    · simp [libambit_personal_settings_get, hd, hf]
  · intro d f data hd hf; simp [libambit_gps_orbit_header_read, hd, hf]
  · rintro data (h | ⟨d, hd, hf⟩)
    · simp [libambit_gps_orbit_header_read, h]
    · simp [libambit_gps_orbit_header_read, hd, hf]
  · intro d f data hd hf; simp [libambit_gps_orbit_write, hd, hf]
  · rintro data (h | ⟨d, hd, hf⟩)
    · simp [libambit_gps_orbit_write, h]
    · simp [libambit_gps_orbit_write, hd, hf]
  · intro d f args hd hf; simp [libambit_log_read, hd, hf]
  · rintro args (h | ⟨d, hd, hf⟩)
    · simp [libambit_log_read, h]
    · simp [libambit_log_read, hd, hf]

/-- Claim C6, witness: on a session whose driver exposes only
`date_time_set`, that call passes through and `status_get` fails with
the sentinel, untouched output and no I/O. -/
theorem capability_dispatch_spec_w :
    libambit_date_time_set objW 5 = (7, [3]) ∧
    libambit_device_status_get objW 4 = (-1, 4, []) := by
  have h := capability_dispatch_spec objW
  exact ⟨h.1 driverW (fun _ => (7, [3])) 5 rfl rfl,
         h.2.2.2.1 4 (Or.inr ⟨driverW, rfl, rfl⟩)⟩

/-- Claim C10: unlike `libambit_close` (for which NULL is a defined
no-op), every capability dispatch call dereferences the session with no
NULL check, so at the pointer level it has a defined result exactly for
non-null sessions, where it reduces to the non-null dispatch. -/
theorem dispatch_requires_session :
    libambit_close none = [] ∧
    (∀ tm, libambit_date_time_set_ptr none tm = none) ∧
    (∀ o tm, libambit_date_time_set_ptr (some o) tm =
      some (libambit_date_time_set o tm)) ∧
    (∀ status, libambit_device_status_get_ptr none status = none) ∧
    (∀ o status, libambit_device_status_get_ptr (some o) status =
      some (libambit_device_status_get o status)) ∧
    (∀ settings, libambit_personal_settings_get_ptr none settings = none) ∧
    (∀ o settings, libambit_personal_settings_get_ptr (some o) settings =
      some (libambit_personal_settings_get o settings)) ∧
    (∀ data, libambit_gps_orbit_header_read_ptr none data = none) ∧
    (∀ o data, libambit_gps_orbit_header_read_ptr (some o) data =
      some (libambit_gps_orbit_header_read o data)) ∧
    (∀ data, libambit_gps_orbit_write_ptr none data = none) ∧
    (∀ o data, libambit_gps_orbit_write_ptr (some o) data =
      some (libambit_gps_orbit_write o data)) ∧
    (∀ args, libambit_log_read_ptr none args = none) ∧
    (∀ o args, libambit_log_read_ptr (some o) args =
      some (libambit_log_read o args)) :=
  ⟨rfl, fun _ => rfl, fun _ _ => rfl, fun _ => rfl, fun _ _ => rfl,
   fun _ => rfl, fun _ _ => rfl, fun _ => rfl, fun _ _ => rfl,
   fun _ => rfl, fun _ _ => rfl, fun _ => rfl, fun _ _ => rfl⟩

/-- `takeWhile` keeps a list all of whose elements are non-zero. -/
theorem takeWhile_ne_zero_all {l : List Nat} (h : ∀ b ∈ l, b ≠ 0) :
    l.takeWhile (fun b => b ≠ 0) = l := by
  rw [List.takeWhile_eq_self_iff]
  simpa using h

/-- A non-zero field followed by NUL padding reads back as the field. -/
theorem takeWhile_field_pad (bytes : List Nat) (k : Nat)
    (h0 : ∀ b ∈ bytes, b ≠ 0) :
    (bytes ++ List.replicate k 0).takeWhile (fun b => b ≠ 0) = bytes := by
  rw [List.takeWhile_append, takeWhile_ne_zero_all h0]
  simp [List.takeWhile_replicate]

/-- Claim C9: on a successful probe, `device_info_get` fills the record
exactly per the fixed wire layout — model name (`modelLen` bytes,
NUL-terminated at its fixed maximum), then serial (`serialLen` bytes),
then 4 bytes of firmware version, then 4 bytes of hardware version; on
probe failure it returns the sentinel `-1` and leaves the record
untouched. -/
theorem device_info_get_wire_layout (modelLen serialLen : Nat)
    (modelBytes serialBytes fw hw : List Nat) (info : AmbitDeviceInfo)
    (hm : modelBytes.length ≤ modelLen) (hm0 : ∀ b ∈ modelBytes, b ≠ 0)
    (hs : serialBytes.length ≤ serialLen) (hs0 : ∀ b ∈ serialBytes, b ≠ 0)
    (hfw : fw.length = 4) (hhw : hw.length = 4) :
    device_info_get modelLen serialLen
        (some ((modelBytes ++ List.replicate (modelLen - modelBytes.length) 0) ++
               ((serialBytes ++ List.replicate (serialLen - serialBytes.length) 0) ++
                (fw ++ hw))))
        (some info) =
      (0, some { info with
                   model := modelBytes
                   serial := serialBytes
                   fw_version := fw
                   hw_version := hw }) ∧
    (∀ i, device_info_get modelLen serialLen none i = (-1, i)) := by
  refine ⟨?_, fun i => rfl⟩
  set A := modelBytes ++ List.replicate (modelLen - modelBytes.length) (0 : Nat) with hA
  set B := serialBytes ++ List.replicate (serialLen - serialBytes.length) (0 : Nat) with hB
  have hAlen : A.length = modelLen := by simp [hA]; omega
  have hBlen : B.length = serialLen := by simp [hB]; omega
  have h1 : strncpyField (A ++ (B ++ (fw ++ hw))) modelLen = modelBytes := by
    unfold strncpyField
    rw [← hAlen, List.take_left, hA]
    exact takeWhile_field_pad _ _ hm0
  have hdropA : (A ++ (B ++ (fw ++ hw))).drop modelLen = B ++ (fw ++ hw) := by
    rw [← hAlen, List.drop_left]
  have h2 : strncpyField ((A ++ (B ++ (fw ++ hw))).drop modelLen) serialLen = serialBytes := by
    rw [hdropA]
    unfold strncpyField
    rw [← hBlen, List.take_left, hB]
    exact takeWhile_field_pad _ _ hs0
  have hdropAB : (A ++ (B ++ (fw ++ hw))).drop (modelLen + serialLen) = fw ++ hw := by
    rw [← List.drop_drop, hdropA, ← hBlen, List.drop_left]
  have h3 : ((A ++ (B ++ (fw ++ hw))).drop (modelLen + serialLen)).take 4 = fw := by
    rw [hdropAB]
    exact List.take_left' hfw
  have h4 : ((A ++ (B ++ (fw ++ hw))).drop (modelLen + serialLen + 4)).take 4 = hw := by
    rw [← List.drop_drop, hdropAB, List.drop_left' hfw, ← hhw, List.take_length]
  show (0, some (applyDeviceInfoReply modelLen serialLen (A ++ (B ++ (fw ++ hw))) info)) = _
  unfold applyDeviceInfoReply
  rw [h1, h2, h3, h4]

/-- Claim C9, witness: the wire-layout theorem applied to a concrete
synthetic reply buffer (model `"M"`, serial `"S1"`, firmware
`[1,2,3,4]`, hardware `[9,8,7,6]`, field widths 2). -/
theorem device_info_get_wire_layout_w :
    device_info_get 2 2
        (some (([77] ++ List.replicate (2 - [77].length) 0) ++
               (([83, 49] ++ List.replicate (2 - [83, 49].length) 0) ++
                ([1, 2, 3, 4] ++ [9, 8, 7, 6]))))
        (some infoZero) =
      (0, some { infoZero with
                   model := [77]
                   serial := [83, 49]
                   fw_version := [1, 2, 3, 4]
                   hw_version := [9, 8, 7, 6] }) :=
  (device_info_get_wire_layout 2 2 [77] [83, 49] [1, 2, 3, 4] [9, 8, 7, 6]
    infoZero (by decide) (by decide) (by decide) (by decide) rfl rfl).1

/-- Claim C3, counterexample to the claim as stated: a recognized device
whose HID open fails (access-status 13) still carries the bus-reported,
transcoded display name `"A"` — the name and serial fields are filled
from the descriptor before the transport open is attempted, so they are
not zeroed on probe failure. -/
theorem device_info_new_cx :
    ambit_device_info_new envW (some devW) = some recW ∧
    recW.access_status ≠ 0 ∧
    recW.name ≠ [] := by
  refine ⟨by decide, by decide, by decide⟩

/-- Claim C3 (amended): every record `ambit_device_info_new` returns has
a non-null path, and a record with non-zero access-status has zeroed
model, firmware version, hardware version and support flag (they are
populated only after a successful probe) — but its display name and
serial may carry the bus-reported transcoded strings. -/
theorem device_info_new_invariants (env : DevEnv) (dev : Option HidDeviceInfo)
    (r : AmbitDeviceInfo) (h : ambit_device_info_new env dev = some r) :
    r.path.isSome = true ∧
    (r.access_status ≠ 0 →
      r.model = [] ∧ r.fw_version = [0, 0, 0, 0] ∧ r.hw_version = [0, 0, 0, 0] ∧
      r.is_supported = false) := by
  cases dev with
  | none => exact absurd h (by simp [ambit_device_info_new])
  | some d =>
    cases hp : d.path with
    | none => exact absurd h (by simp [ambit_device_info_new, hp])
    | some p =>
      simp only [ambit_device_info_new, hp] at h
      cases hkn : env.known with
      | false => simp [hkn] at h
      | true =>
      cases hsd : env.strdupOk with
      | false => simp [hkn, hsd] at h
      | true =>
      cases hca : env.callocOk with
      | false => simp [hkn, hsd, hca] at h
      | true =>
      cases hho : env.hidOpenOk with
      | true =>
        cases hpr : env.probeReply with
        | some reply =>
          cases hfd : env.find with
          | some kd =>
            simp only [hkn, hsd, hca, hho, hpr, hfd, Bool.not_true, Bool.false_eq_true,
                       if_false, if_true, Option.some.injEq] at h
            subst h
            simp [applyDeviceInfoReply]
          | none =>
            simp only [hkn, hsd, hca, hho, hpr, hfd, Bool.not_true, Bool.false_eq_true,
                       if_false, if_true, Option.some.injEq] at h
            subst h
            simp [applyDeviceInfoReply]
        | none =>
          simp only [hkn, hsd, hca, hho, hpr, Bool.not_true, Bool.false_eq_true,
                     if_false, if_true, Option.some.injEq] at h
          subst h
          simp
      | false =>
        cases hre : env.rdwrErrno with
        | some errn =>
          simp only [hkn, hsd, hca, hho, hre, Bool.not_true, Bool.false_eq_true,
                     if_false, if_true, Option.some.injEq] at h
          subst h
          simp
        | none =>
          simp only [hkn, hsd, hca, hho, hre, Bool.not_true, Bool.false_eq_true,
                     if_false, if_true, Option.some.injEq] at h
          subst h
          simp

/-- Claim C3, witness: the amended invariant applied to the concrete
record produced for `devW` under `envW` (access-status 13). -/
theorem device_info_new_invariants_w :
    recW.model = [] ∧ recW.fw_version = [0, 0, 0, 0] ∧
    recW.hw_version = [0, 0, 0, 0] ∧ recW.is_supported = false :=
  (device_info_new_invariants envW (some devW) recW (by decide)).2 (by decide)

/-- Claim C2, counterexample to the claim as stated: `libambit_new` on a
record with non-zero access-status does return NULL without any
transport open, but it is not allocation-free — it duplicates the path
string (`strdup`) before checking the access-status, then frees it. -/
theorem libambit_new_cx :
    recW.access_status ≠ 0 ∧
    (libambit_new envN (some recW)).1.isNone = true ∧
    NewEvent.strdupPath ∈ (libambit_new envN (some recW)).2 := by
  refine ⟨by decide, by decide, by decide⟩

/-- Claim C2 (amended): `libambit_new` on a record with non-zero
access-status or an unset support flag returns NULL, performs no
transport I/O (it never opens the handle), never allocates the session
object and never initializes a driver; the only allocation is the path
duplicate, which is freed before returning. -/
theorem libambit_new_fails_fast (env : NewEnv) (d : AmbitDeviceInfo)
    (p : List Nat) (hp : d.path = some p)
    (h : d.access_status ≠ 0 ∨ d.is_supported = false) :
    (libambit_new env (some d)).1 = none ∧
    NewEvent.hidOpen ∉ (libambit_new env (some d)).2 ∧
    NewEvent.callocObject ∉ (libambit_new env (some d)).2 ∧
    NewEvent.driverInit ∉ (libambit_new env (some d)).2 ∧
    (libambit_new env (some d)).2 =
      [NewEvent.strdupPath] ++ (if env.strdupOk then [NewEvent.freePath] else []) := by
  have hcond : ¬(d.access_status = 0 ∧ d.is_supported = true) := by
    rcases h with h | h
    · exact fun hc => h hc.1
    · exact fun hc => by rw [h] at hc; exact Bool.false_ne_true hc.2
  cases hsd : env.strdupOk with
  | false => simp [libambit_new, hp, hsd, hcond]
  | true => simp [libambit_new, hp, hsd, hcond]

/-- Claim C2, witness: the amended theorem applied to the concrete
record `recW` (access-status 13). -/
theorem libambit_new_fails_fast_w :
    (libambit_new envN (some recW)).1 = none ∧
    NewEvent.hidOpen ∉ (libambit_new envN (some recW)).2 ∧
    NewEvent.callocObject ∉ (libambit_new envN (some recW)).2 ∧
    NewEvent.driverInit ∉ (libambit_new envN (some recW)).2 ∧
    (libambit_new envN (some recW)).2 =
      [NewEvent.strdupPath] ++ (if envN.strdupOk then [NewEvent.freePath] else []) :=
  libambit_new_fails_fast envN recW [1] (by decide) (Or.inl (by decide))

/-- Claim C1: evaluation of the enumeration loop at a failing input.
Two descriptors are both recognized by the registry and both yield a
record, yet `libambit_enumerate` returns only the first record: the loop
sets `tmp->next = devices` for the second record without advancing the
`devices` head, so every record after the first is dropped (and leaked),
where the specified contract (prepend semantics, one record per
recognized descriptor) requires both, most recently processed first. -/
theorem enumerate_drops_records :
    libambit_enumerate envAll [dev1, dev2] = [rec1] ∧
    enumerateSpec envAll [dev1, dev2] = [rec2, rec1] ∧
    libambit_enumerate envAll [dev1, dev2] ≠ enumerateSpec envAll [dev1, dev2] := by
  refine ⟨by decide, by decide, by decide⟩
